import Mathlib

/-!
Shallow embedding of `src/graph_builder/graph/graph.py`: the graph IR's
`Node`/`Operator`/`Variable` data model, the operator link protocol
(`append_input`, `remove_input`, `replace_input`, `append_output`,
`remove_output`, `replace_output`, and the reverse lookups
`get_input_name`/`get_output_name`), and the shape/axis-order
reconciliation `change_axis_order`.

Modelling conventions:
* Python object identity is modelled by numeric ids (`Nat`); the graph
  state maps ids to `Variable`/`Operator` records.
* Python dicts (which preserve insertion order and have unique keys) are
  modelled as association lists; Python sets as `Finset Nat`.
* Each mutating method returns the state after whatever mutations
  happened together with the exception raised, if any, so that the state
  at the moment an exception propagates is observable.
-/

namespace WebDNN

/-- Kinds of Python exceptions the embedded code can raise. In the source,
`lookupError` (a failed reverse lookup in `get_input_name`/`get_output_name`)
and `conflictError` (the single-writer check in `append_output`) are both
concrete `KeyError`s; `nameError` models the `UnboundLocalError` raised when
the `for`/`else` error path of `get_input_name`/`get_output_name` reads the
loop variable `name` after a loop over an **empty** dict never bound it;
`setKeyError` models Python's `set.remove` on an absent element; `typeError`
models reading a key from `None`; `assertionError` models a failed `assert`. -/
inductive PyErr where
  | lookupError
  | conflictError
  | nameError
  | setKeyError
  | typeError
  | assertionError
deriving DecidableEq, Repr

/-- Modelled from the spec: the axis-order trait "defines an ordered list of
named axes" (the class hierarchy `graph_builder.graph.variables.attributes`
is not under `src/`). -/
structure AxisOrder where
  axes : List String
deriving DecidableEq, Repr

/-- Modelled from the spec: `ndim` is the trait's declared axis count. -/
def AxisOrder.ndim (a : AxisOrder) : Nat :=
  a.axes.length

/-- `Variable`: a graph edge. `shape`/`axis_order` per the source; `input_to`
is the set of consuming operator ids, `output_from` the optional producer id,
`parameters` the `Node` parameter bag (`none` models Python `None`). -/
structure Variable where
  shape : List Nat
  axis_order : AxisOrder
  input_to : Finset Nat
  output_from : Option Nat
  parameters : Option (List (String × String))
deriving DecidableEq

/-- `Operator`: a graph vertex with named input/output slot maps, modelled as
insertion-ordered association lists (Python dicts). -/
structure Operator where
  name : String
  parameters : Option (List (String × String))
  inputs : List (String × Nat)
  outputs : List (String × Nat)
deriving DecidableEq

/-- The whole-graph state: what every Variable id and Operator id denotes. -/
structure GState where
  vars : Nat → Variable
  ops : Nat → Operator

/-- Pointwise update of an id-indexed map. -/
def updFn {α : Type} (f : Nat → α) (i : Nat) (x : α) : Nat → α :=
  fun j => if j = i then x else f j

/-- Python dict read `d[k]` / `d.get(k)` on an association list. -/
def dlookup {β : Type} : List (String × β) → String → Option β
  | [], _ => none
  | (k, x) :: rest, k' => if k = k' then some x else dlookup rest k'

/-- Python dict assignment `d[k] = v`: updates the value in place if the key
exists (keeping its position), otherwise appends the new entry at the end. -/
def dictInsert : List (String × Nat) → String → Nat → List (String × Nat)
  | [], k, v => [(k, v)]
  | (k', v') :: rest, k, v =>
    if k' = k then (k, v) :: rest else (k', v') :: dictInsert rest k v

/-- Python dict removal `d.pop(k)` (the entry's removal; used only on keys
just found by a reverse lookup). -/
def dictPop : List (String × Nat) → String → List (String × Nat)
  | [], _ => []
  | (k', v') :: rest, k => if k' = k then rest else (k', v') :: dictPop rest k

/-- The loop of `get_input_name`/`get_output_name`: scan the slot map in
insertion order and return the first slot name whose value is the given
Variable (identity comparison `v is var`). -/
def lookupName : List (String × Nat) → Nat → Option String
  | [], _ => none
  | (n, w) :: rest, v => if w = v then some n else lookupName rest v

/-- The error that the `for`/`else` branch of `get_input_name` /
`get_output_name` produces: a `KeyError` (lookup error) built from the loop
variable `name` when the map is nonempty, but an `UnboundLocalError` (name
error) when the map is empty, because `name` was never bound. -/
def lookup_failure_error (d : List (String × Nat)) : PyErr :=
  if d.isEmpty then PyErr.nameError else PyErr.lookupError

/-- `Operator.get_input_name`. -/
def get_input_name (o : Operator) (var : Nat) : Except PyErr String :=
  match lookupName o.inputs var with
  | some n => Except.ok n
  | none => Except.error (lookup_failure_error o.inputs)

/-- `Operator.get_output_name`. -/
def get_output_name (o : Operator) (var : Nat) : Except PyErr String :=
  match lookupName o.outputs var with
  | some n => Except.ok n
  | none => Except.error (lookup_failure_error o.outputs)

/-- `Operator.append_input`: `self.inputs[name] = var` then
`var.input_to.add(self)`. Total: it never raises. -/
def append_input (s : GState) (op : Nat) (name : String) (var : Nat) : GState :=
  let o := s.ops op
  let s1 : GState := { s with ops := updFn s.ops op { o with inputs := dictInsert o.inputs name var } }
  let w := s1.vars var
  { s1 with vars := updFn s1.vars var { w with input_to := insert op w.input_to } }

/-- `Operator.remove_input`: reverse lookup, `self.inputs.pop(name)`, then
`var.input_to.remove(self)` (which raises a `KeyError` when `self` is
absent); mutations made before a raise persist. -/
def remove_input (s : GState) (op var : Nat) : GState × Option PyErr :=
  match get_input_name (s.ops op) var with
  | Except.error e => (s, some e)
  | Except.ok name =>
    let o := s.ops op
    let s1 : GState := { s with ops := updFn s.ops op { o with inputs := dictPop o.inputs name } }
    let w := s1.vars var
    if op ∈ w.input_to then
      ({ s1 with vars := updFn s1.vars var { w with input_to := w.input_to.erase op } }, none)
    else
      (s1, some PyErr.setKeyError)

/-- `Operator.replace_input`: `name = self.get_input_name(v_old)`, then
`self.remove_input(v_old)` (which repeats the same lookup), then
`self.append_input(name, v_new)`. -/
def replace_input (s : GState) (op v_old v_new : Nat) : GState × Option PyErr :=
  match get_input_name (s.ops op) v_old with
  | Except.error e => (s, some e)
  | Except.ok name =>
    match remove_input s op v_old with
    | (s1, some e) => (s1, some e)
    | (s1, none) => (append_input s1 op name v_new, none)

/-- `Operator.append_output`: raises a `KeyError` (conflict) when
`var.output_from is not None`, before any mutation; otherwise
`self.outputs[name] = var` and `var.output_from = self`. -/
def append_output (s : GState) (op : Nat) (name : String) (var : Nat) :
    GState × Option PyErr :=
  match (s.vars var).output_from with
  | some _ => (s, some PyErr.conflictError)
  | none =>
    let o := s.ops op
    let s1 : GState := { s with ops := updFn s.ops op { o with outputs := dictInsert o.outputs name var } }
    let w := s1.vars var
    ({ s1 with vars := updFn s1.vars var { w with output_from := some op } }, none)

/-- `Operator.remove_output`: reverse lookup, `var = self.outputs.pop(name)`
(the popped value is the looked-up Variable itself, dict keys being unique),
then `var.output_from = None`. -/
def remove_output (s : GState) (op var : Nat) : GState × Option PyErr :=
  match get_output_name (s.ops op) var with
  | Except.error e => (s, some e)
  | Except.ok name =>
    let o := s.ops op
    let s1 : GState := { s with ops := updFn s.ops op { o with outputs := dictPop o.outputs name } }
    let w := s1.vars var
    ({ s1 with vars := updFn s1.vars var { w with output_from := none } }, none)

/-- `Operator.replace_output`: `name = self.get_output_name(v_old)`, then
`self.remove_output(v_old)` (repeating the lookup), then
`self.append_output(name, v_new)`. -/
def replace_output (s : GState) (op v_old v_new : Nat) : GState × Option PyErr :=
  match get_output_name (s.ops op) v_old with
  | Except.error e => (s, some e)
  | Except.ok name =>
    match remove_output s op v_old with
    | (s1, some e) => (s1, some e)
    | (s1, none) => append_output s1 op name v_new

/-- The `Node`-constructor-installed fields. -/
structure NodeFields where
  parameters : Option (List (String × String))

/-- `Node.__init__`: `self.parameters = parameters if parameters is not None
else {}` — installs the given mapping, or an empty one for `None`. -/
def Node_init (parameters : Option (List (String × String))) : NodeFields :=
  { parameters := some (parameters.getD []) }

/-- `Operator.__init__`: calls the `Node` base constructor, then reassigns
`self.parameters = parameters` with the raw optional argument, discarding
the base constructor's `None`-to-empty normalization. -/
def mkOperator (name : String) (parameters : Option (List (String × String))) :
    Operator :=
  let _fromBase := Node_init parameters
  { name := name
    parameters := parameters
    inputs := []
    outputs := [] }

/-- `Variable.__init__`: `super().__init__()` installs an empty parameter
bag; the shape is copied, `input_to` starts empty, and finally
`assert axis_order.ndim == len(self.shape)`. The `issubclass` check and the
attribute-set bookkeeping fall outside the embedded core. -/
def mkVariable (shape : List Nat) (axis_order : AxisOrder) :
    Except PyErr Variable :=
  if axis_order.ndim = shape.length then
    Except.ok
      { shape := shape
        axis_order := axis_order
        input_to := ∅
        output_from := none
        parameters := (Node_init none).parameters }
  else
    Except.error PyErr.assertionError

/-- Reading a key from a parameter bag (e.g. `"name" in self.parameters` /
`self.parameters[key]`): on a `None` bag Python raises a `TypeError`. -/
def read_parameter (bag : Option (List (String × String))) (key : String) :
    Except PyErr (Option String) :=
  match bag with
  | none => Except.error PyErr.typeError
  | some ps => Except.ok (dlookup ps key)

/-- Modelled from the spec: `shape_dict` is "the axis-order's mapping from
axis name to size for this variable's current shape"
(`axis_order.get_shape_dict(self)` lives outside `src/`): the current axes
zipped with the current shape. -/
def shape_dict (v : Variable) : List (String × Nat) :=
  v.axis_order.axes.zip v.shape

/-- `Variable.change_axis_order`: computes the current shape dict and the
new shape (sizes of kept axes, default 1 for introduced axes), asserts every
dropped axis has size exactly 1, then replaces `axis_order` and `shape`.
The assertion fires before either field is mutated. -/
def change_axis_order (v : Variable) (axis_order : AxisOrder) :
    Variable × Option PyErr :=
  let current_shape_dict := shape_dict v
  let new_shape := axis_order.axes.map fun a => (dlookup current_shape_dict a).getD 1
  if current_shape_dict.all fun p => decide (p.1 ∈ axis_order.axes) || decide (p.2 = 1) then
    ({ v with axis_order := axis_order, shape := new_shape }, none)
  else
    (v, some PyErr.assertionError)

/-- The bidirectional-consistency invariant, input side: every slot entry of
every operator is backed by a reverse link in the variable's `input_to`. -/
def InputInv (s : GState) : Prop :=
  ∀ op name var, (name, var) ∈ (s.ops op).inputs → op ∈ (s.vars var).input_to

/-- A fresh state: every id denotes an unlinked Variable and an Operator
with empty slot maps (built with no parameter mapping). -/
def initState : GState :=
  { vars := fun _ =>
      { shape := [1]
        axis_order := { axes := ["N"] }
        input_to := ∅
        output_from := none
        parameters := some [] }
    ops := fun _ => mkOperator "op" none }

/-! ## Basic lemmas about the embedding -/

theorem updFn_self {α : Type} (f : Nat → α) (i : Nat) (x : α) : updFn f i x i = x := by
  simp [updFn]

theorem updFn_ne {α : Type} (f : Nat → α) (i j : Nat) (x : α) (h : j ≠ i) :
    updFn f i x j = f j := by
  simp [updFn, h]

theorem dlookup_dictInsert_self (d : List (String × Nat)) (k : String) (v : Nat) :
    dlookup (dictInsert d k v) k = some v := by
  induction d with
  | nil => simp [dictInsert, dlookup]
  | cons p rest ih =>
    obtain ⟨k', v'⟩ := p
    by_cases h : k' = k
    · subst h; simp [dictInsert, dlookup]
    · simp [dictInsert, dlookup, h, ih]

theorem append_output_success (s : GState) (op : Nat) (name : String) (var : Nat)
    (h : (s.vars var).output_from = none) :
    append_output s op name var =
      ({ vars := updFn s.vars var { s.vars var with output_from := some op },
         ops := updFn s.ops op { s.ops op with outputs := dictInsert (s.ops op).outputs name var } },
       none) := by
  unfold append_output
  rw [h]

theorem append_output_conflict (s : GState) (op : Nat) (name : String) (var : Nat)
    (p : Nat) (h : (s.vars var).output_from = some p) :
    append_output s op name var = (s, some PyErr.conflictError) := by
  unfold append_output
  rw [h]

theorem get_input_name_found (o : Operator) (var : Nat) (name : String)
    (h : lookupName o.inputs var = some name) :
    get_input_name o var = Except.ok name := by
  unfold get_input_name
  rw [h]

theorem get_input_name_miss (o : Operator) (var : Nat)
    (h : lookupName o.inputs var = none) :
    get_input_name o var = Except.error (lookup_failure_error o.inputs) := by
  unfold get_input_name
  rw [h]

theorem get_output_name_found (o : Operator) (var : Nat) (name : String)
    (h : lookupName o.outputs var = some name) :
    get_output_name o var = Except.ok name := by
  unfold get_output_name
  rw [h]

theorem get_output_name_miss (o : Operator) (var : Nat)
    (h : lookupName o.outputs var = none) :
    get_output_name o var = Except.error (lookup_failure_error o.outputs) := by
  unfold get_output_name
  rw [h]

theorem remove_input_success (s : GState) (op var : Nat) (name : String)
    (hn : lookupName (s.ops op).inputs var = some name)
    (hm : op ∈ (s.vars var).input_to) :
    remove_input s op var =
      ({ vars := updFn s.vars var { s.vars var with input_to := (s.vars var).input_to.erase op },
         ops := updFn s.ops op { s.ops op with inputs := dictPop (s.ops op).inputs name } },
       none) := by
  unfold remove_input
  rw [get_input_name_found _ _ _ hn]
  simp only []
  rw [if_pos hm]

theorem remove_output_success (s : GState) (op var : Nat) (name : String)
    (hn : lookupName (s.ops op).outputs var = some name) :
    remove_output s op var =
      ({ vars := updFn s.vars var { s.vars var with output_from := none },
         ops := updFn s.ops op { s.ops op with outputs := dictPop (s.ops op).outputs name } },
       none) := by
  unfold remove_output
  rw [get_output_name_found _ _ _ hn]

/-! ## Claim theorems -/

/-- C1 counterexample: after `op.append_output("a", v)` the producer of `v`
is `op` itself, yet a second `op.append_output("b", v)` by the **same**
Operator still raises the conflict error — the guard tests
`var.output_from is not None`, not "is a different Operator", so the claimed
"succeeds when `var.output_from` is `op` itself" is false. -/
theorem append_output_self_conflict_cex :
    (((append_output initState 0 "a" 0).1).vars 0).output_from = some 0 ∧
    (append_output ((append_output initState 0 "a" 0).1) 0 "b" 0).2 =
      some PyErr.conflictError := by
  exact ⟨rfl, rfl⟩

/-- C1 (amended): `append_output` raises the conflict error precisely when
`var.output_from` is already set to any Operator — including `op` itself —
and a failing call leaves the state unmodified; the call succeeds exactly
when `var.output_from` is `None`. -/
theorem append_output_guard (s : GState) (op : Nat) (name : String) (var : Nat) :
    ((s.vars var).output_from ≠ none →
      append_output s op name var = (s, some PyErr.conflictError)) ∧
    ((s.vars var).output_from = none → (append_output s op name var).2 = none) := by
  constructor
  · intro h
    cases hof : (s.vars var).output_from with
    | none => exact absurd hof h
    | some p => exact append_output_conflict s op name var p hof
  · intro h
    rw [append_output_success s op name var h]

/-- C1 witness: the amended guard theorem applied at a concrete fresh state
(producer absent, so the call succeeds). -/
theorem append_output_guard_w :
    (initState.vars 0).output_from = none ∧
    (append_output initState 0 "y" 0).2 = none :=
  ⟨rfl, (append_output_guard initState 0 "y" 0).2 rfl⟩

/-- C5: after a successful `append_output("y", v)`, the slot holds `v` and
`v.output_from` is `op`; a subsequent `append_output` of `v` by a different
Operator fails with the conflict error and leaves the whole state — in
particular the first linkage — untouched. -/
theorem append_output_single_writer (s : GState) (op op2 : Nat) (name name2 : String)
    (var : Nat) (h : (s.vars var).output_from = none) (_hne : op2 ≠ op) :
    dlookup ((append_output s op name var).1.ops op).outputs name = some var ∧
    ((append_output s op name var).1.vars var).output_from = some op ∧
    append_output ((append_output s op name var).1) op2 name2 var =
      ((append_output s op name var).1, some PyErr.conflictError) := by
  rw [append_output_success s op name var h]
  refine ⟨?_, ?_, ?_⟩
  · simp [updFn_self, dlookup_dictInsert_self]
  · simp [updFn_self]
  · exact append_output_conflict _ op2 name2 var op (by simp [updFn_self])

/-- C5 witness: `conv` (id 0) appends `w` (id 0) as output; `conv2` (id 1)
attempting the same raises the conflict error and the first linkage stands. -/
theorem append_output_single_writer_w :
    (initState.vars 0).output_from = none ∧ (1 : Nat) ≠ 0 ∧
    (dlookup ((append_output initState 0 "w" 0).1.ops 0).outputs "w" = some 0 ∧
     ((append_output initState 0 "w" 0).1.vars 0).output_from = some 0 ∧
     append_output ((append_output initState 0 "w" 0).1) 1 "w" 0 =
       ((append_output initState 0 "w" 0).1, some PyErr.conflictError)) :=
  ⟨rfl, by decide, append_output_single_writer initState 0 1 "w" "w" 0 rfl (by decide)⟩

/-- C6: `append_input(s, var)` sets the slot to `var` and adds `op` to
`var.input_to`; it never raises (it is a total function of the state), and
when the slot previously held a different Variable `w`, `w`'s `input_to` is
left untouched — the stale back-link is not cleaned up. -/
theorem append_input_spec (s : GState) (op : Nat) (name : String) (var : Nat) :
    dlookup ((append_input s op name var).ops op).inputs name = some var ∧
    op ∈ ((append_input s op name var).vars var).input_to ∧
    (∀ w, w ≠ var → dlookup (s.ops op).inputs name = some w →
      ((append_input s op name var).vars w).input_to = (s.vars w).input_to) := by
  refine ⟨?_, ?_, ?_⟩
  · simp [append_input, updFn_self, dlookup_dictInsert_self]
  · simp [append_input, updFn_self]
  · intro w hw _
    simp [append_input, updFn_ne _ _ _ _ hw]

/-- C6 witness: slot `"x"` of operator 0 already holds Variable 1; appending
Variable 2 at `"x"` succeeds, and Variable 1 keeps its (now stale) back-link. -/
theorem append_input_spec_w :
    dlookup ((append_input (append_input initState 0 "x" 1) 0 "x" 2).ops 0).inputs "x" =
      some 2 ∧
    0 ∈ ((append_input (append_input initState 0 "x" 1) 0 "x" 2).vars 2).input_to ∧
    ((append_input (append_input initState 0 "x" 1) 0 "x" 2).vars 1).input_to =
      ((append_input initState 0 "x" 1).vars 1).input_to :=
  ⟨(append_input_spec (append_input initState 0 "x" 1) 0 "x" 2).1,
   (append_input_spec (append_input initState 0 "x" 1) 0 "x" 2).2.1,
   (append_input_spec (append_input initState 0 "x" 1) 0 "x" 2).2.2 1 (by decide) (by decide)⟩

/-- C3 counterexample: on an Operator whose `inputs` map is empty, the
reverse lookup does not raise the lookup error: the `for`/`else` error path
reads the never-bound loop variable `name` and an unbound-local name error
is raised instead. -/
theorem empty_map_name_error_cex :
    (initState.ops 0).inputs = [] ∧
    get_input_name (initState.ops 0) 0 = Except.error PyErr.nameError ∧
    PyErr.nameError ≠ PyErr.lookupError :=
  ⟨rfl, rfl, by decide⟩

/-- C3 (amended): when given a Variable not registered in the expected role,
each of `get_input_name`, `get_output_name`, `remove_input`, `remove_output`,
`replace_input` (on the old input) and `replace_output` (on the old output)
raises the lookup error if the relevant map is nonempty, but an unbound-local
name error if the map is empty; in every such case the state is unmodified. -/
theorem lookup_error_spec (s : GState) (op var : Nat) :
    (lookupName (s.ops op).inputs var = none →
      get_input_name (s.ops op) var =
        Except.error (lookup_failure_error (s.ops op).inputs) ∧
      remove_input s op var = (s, some (lookup_failure_error (s.ops op).inputs)) ∧
      ∀ v2, replace_input s op var v2 =
        (s, some (lookup_failure_error (s.ops op).inputs))) ∧
    (lookupName (s.ops op).outputs var = none →
      get_output_name (s.ops op) var =
        Except.error (lookup_failure_error (s.ops op).outputs) ∧
      remove_output s op var = (s, some (lookup_failure_error (s.ops op).outputs)) ∧
      ∀ v2, replace_output s op var v2 =
        (s, some (lookup_failure_error (s.ops op).outputs))) := by
  constructor
  · intro h
    refine ⟨get_input_name_miss _ _ h, ?_, ?_⟩
    · unfold remove_input
      rw [get_input_name_miss _ _ h]
    · intro v2
      unfold replace_input
      rw [get_input_name_miss _ _ h]
  · intro h
    refine ⟨get_output_name_miss _ _ h, ?_, ?_⟩
    · unfold remove_output
      rw [get_output_name_miss _ _ h]
    · intro v2
      unfold replace_output
      rw [get_output_name_miss _ _ h]

/-- C3 witness: operator 0's `inputs` holds only Variable 1, its `outputs`
is empty, and Variable 5 is registered in neither role: the input-side calls
raise the lookup error, the output-side calls the name error. -/
theorem lookup_error_spec_w :
    lookupName ((append_input initState 0 "x" 1).ops 0).inputs 5 = none ∧
    lookupName ((append_input initState 0 "x" 1).ops 0).outputs 5 = none ∧
    remove_input (append_input initState 0 "x" 1) 0 5 =
      (append_input initState 0 "x" 1, some PyErr.lookupError) ∧
    remove_output (append_input initState 0 "x" 1) 0 5 =
      (append_input initState 0 "x" 1, some PyErr.nameError) :=
  ⟨rfl, rfl,
   ((lookup_error_spec (append_input initState 0 "x" 1) 0 5).1 rfl).2.1,
   ((lookup_error_spec (append_input initState 0 "x" 1) 0 5).2 rfl).2.1⟩

/-- A state in which Operator 1 produces Variable 2 (slot `"w"`) and
Operator 0 produces Variable 3 (slot `"y"`). -/
def c2_state : GState :=
  (append_output ((append_output initState 1 "w" 2).1) 0 "y" 3).1

/-- C2 counterexample: `replace_output(old, new)` failing with the conflict
error does **not** leave the graph unapplied: before the call operator 0 has
`outputs = [("y", 3)]` and Variable 3's producer is operator 0; after the
failed call the slot is gone and Variable 3's producer is cleared — removed
but not re-added. -/
theorem replace_output_partial_cex :
    (replace_output c2_state 0 3 2).2 = some PyErr.conflictError ∧
    (c2_state.ops 0).outputs = [("y", 3)] ∧
    ((replace_output c2_state 0 3 2).1.ops 0).outputs = [] ∧
    (c2_state.vars 3).output_from = some 0 ∧
    ((replace_output c2_state 0 3 2).1.vars 3).output_from = none :=
  ⟨rfl, rfl, rfl, rfl, rfl⟩

/-- C2 (amended): a `replace_output` that fails the identity lookup (old not
an output) leaves the graph fully unapplied; but a failure by conflict (new
already has a producer, new distinct from old) leaves the graph **partially
applied**: old's slot has been deleted from the outputs map and old's
`output_from` cleared, while new is unchanged. -/
theorem replace_output_failure_cases (s : GState) (op v_old v_new : Nat) :
    (lookupName (s.ops op).outputs v_old = none →
      replace_output s op v_old v_new =
        (s, some (lookup_failure_error (s.ops op).outputs))) ∧
    (∀ name, lookupName (s.ops op).outputs v_old = some name →
      v_new ≠ v_old → (s.vars v_new).output_from ≠ none →
      (replace_output s op v_old v_new).2 = some PyErr.conflictError ∧
      ((replace_output s op v_old v_new).1.ops op).outputs =
        dictPop (s.ops op).outputs name ∧
      ((replace_output s op v_old v_new).1.vars v_old).output_from = none ∧
      (replace_output s op v_old v_new).1.vars v_new = s.vars v_new) := by
  constructor
  · intro h
    unfold replace_output
    rw [get_output_name_miss _ _ h]
  · intro name hn hne hp
    obtain ⟨p, hp2⟩ : ∃ p, (s.vars v_new).output_from = some p := by
      cases hof : (s.vars v_new).output_from with
      | none => exact absurd hof hp
      | some q => exact ⟨q, rfl⟩
    have hrw : replace_output s op v_old v_new =
        ({ vars := updFn s.vars v_old { s.vars v_old with output_from := none },
           ops := updFn s.ops op
             { s.ops op with outputs := dictPop (s.ops op).outputs name } },
         some PyErr.conflictError) := by
      unfold replace_output
      rw [get_output_name_found _ _ _ hn, remove_output_success s op v_old name hn]
      exact append_output_conflict _ op name v_new p
        (by simpa [updFn_ne _ _ _ _ hne] using hp2)
    rw [hrw]
    refine ⟨rfl, ?_, ?_, ?_⟩
    · simp [updFn_self]
    · simp [updFn_self]
    · simp [updFn_ne _ _ _ _ hne]

/-- C2 witness: the conflict branch of the failure-case theorem applied at
the concrete two-producer state. -/
theorem replace_output_failure_cases_w :
    lookupName (c2_state.ops 0).outputs 3 = some "y" ∧ (2 : Nat) ≠ 3 ∧
    (c2_state.vars 2).output_from ≠ none ∧
    ((replace_output c2_state 0 3 2).2 = some PyErr.conflictError ∧
     ((replace_output c2_state 0 3 2).1.ops 0).outputs =
       dictPop (c2_state.ops 0).outputs "y" ∧
     ((replace_output c2_state 0 3 2).1.vars 3).output_from = none ∧
     (replace_output c2_state 0 3 2).1.vars 2 = c2_state.vars 2) :=
  ⟨rfl, by decide, by decide,
   (replace_output_failure_cases c2_state 0 3 2).2 "y" rfl (by decide) (by decide)⟩

theorem replace_input_success (s : GState) (op v_old v_new : Nat) (name : String)
    (hn : lookupName (s.ops op).inputs v_old = some name)
    (hm : op ∈ (s.vars v_old).input_to) :
    replace_input s op v_old v_new =
      (append_input
        { vars := updFn s.vars v_old { s.vars v_old with input_to := (s.vars v_old).input_to.erase op },
          ops := updFn s.ops op { s.ops op with inputs := dictPop (s.ops op).inputs name } }
        op name v_new,
       none) := by
  unfold replace_input
  rw [get_input_name_found _ _ _ hn, remove_input_success s op v_old name hn hm]

/-- Operator 0 holding the same Variable 0 in its two slots `"a"` and `"b"`
(built through the link protocol). -/
def two_slot_state : GState :=
  append_input (append_input initState 0 "a" 0) 0 "b" 0

/-- C7 counterexample, in two parts. (1) When old occupies the two slots
`"a"` and `"b"`, slot `"b"` still holds old after `replace_input(old, new)`
— the claim fails for s = `"b"`. (2) When old and new are the same Variable,
after `replace_input(old, old)` the operator is still in old's `input_to`,
so "old no longer has op in its input_to" fails. -/
theorem replace_input_claim_cex :
    dlookup (two_slot_state.ops 0).inputs "b" = some 0 ∧
    dlookup ((replace_input two_slot_state 0 0 1).1.ops 0).inputs "b" = some 0 ∧
    (0 : Nat) ≠ 1 ∧
    dlookup ((replace_input (append_input initState 0 "x" 0) 0 0 0).1.ops 0).inputs "x" =
      some 0 ∧
    0 ∈ ((replace_input (append_input initState 0 "x" 0) 0 0 0).1.vars 0).input_to := by
  exact ⟨rfl, rfl, by decide, rfl, by decide⟩

/-- C7 (amended): for distinct Variables old ≠ new, in a state where `op` is
in old's `input_to` (as the linkage invariant guarantees), if `name` is the
**first** input slot (in insertion order) holding old, then after
`replace_input(old, new)` the call has raised no error, slot `name` holds
new, `op` is in new's `input_to`, and old no longer has `op` in `input_to`. -/
theorem replace_input_spec (s : GState) (op v_old v_new : Nat) (name : String)
    (hne : v_old ≠ v_new)
    (hmem : op ∈ (s.vars v_old).input_to)
    (hfirst : lookupName (s.ops op).inputs v_old = some name) :
    (replace_input s op v_old v_new).2 = none ∧
    dlookup ((replace_input s op v_old v_new).1.ops op).inputs name = some v_new ∧
    op ∈ ((replace_input s op v_old v_new).1.vars v_new).input_to ∧
    op ∉ ((replace_input s op v_old v_new).1.vars v_old).input_to := by
  rw [replace_input_success s op v_old v_new name hfirst hmem]
  refine ⟨rfl, ?_, ?_, ?_⟩
  · simp [append_input, updFn_self, dlookup_dictInsert_self]
  · simp [append_input, updFn_self]
  · simp [append_input, updFn_ne _ _ _ _ hne, updFn_self]

/-- C7 witness: the amended theorem applied at a single-slot concrete state. -/
theorem replace_input_spec_w :
    (0 : Nat) ≠ 1 ∧ 0 ∈ ((append_input initState 0 "x" 0).vars 0).input_to ∧
    lookupName ((append_input initState 0 "x" 0).ops 0).inputs 0 = some "x" ∧
    ((replace_input (append_input initState 0 "x" 0) 0 0 1).2 = none ∧
     dlookup ((replace_input (append_input initState 0 "x" 0) 0 0 1).1.ops 0).inputs "x" =
       some 1 ∧
     0 ∈ ((replace_input (append_input initState 0 "x" 0) 0 0 1).1.vars 1).input_to ∧
     0 ∉ ((replace_input (append_input initState 0 "x" 0) 0 0 1).1.vars 0).input_to) :=
  ⟨by decide, by decide, rfl,
   replace_input_spec (append_input initState 0 "x" 0) 0 0 1 "x" (by decide) (by decide) rfl⟩

/-- C4 (code bug at the multi-slot case): the state with Variable 0 in the
two slots `"a"` and `"b"` of operator 0 satisfies the input-side
bidirectional-consistency invariant; `remove_input` on Variable 0 succeeds,
pops only slot `"a"`, but removes operator 0 from the variable's `input_to`
set entirely — afterwards `("b", 0)` is still an input entry while the
back-link is gone, so the invariant no longer holds. -/
theorem remove_input_breaks_invariant :
    InputInv two_slot_state ∧
    (remove_input two_slot_state 0 0).2 = none ∧
    ("b", 0) ∈ ((remove_input two_slot_state 0 0).1.ops 0).inputs ∧
    0 ∉ ((remove_input two_slot_state 0 0).1.vars 0).input_to ∧
    ¬ InputInv (remove_input two_slot_state 0 0).1 := by
  refine ⟨?_, rfl, by decide, by decide, ?_⟩
  · intro op name var h
    by_cases hop : op = 0
    · subst hop
      have e : (two_slot_state.ops 0).inputs = [("a", 0), ("b", 0)] := by decide
      rw [e] at h
      simp only [List.mem_cons, List.not_mem_nil, or_false, Prod.mk.injEq] at h
      rcases h with ⟨-, hv⟩ | ⟨-, hv⟩ <;> subst hv <;> decide
    · have e : (two_slot_state.ops op).inputs = [] := by
        simp [two_slot_state, append_input, updFn, hop, initState, mkOperator]
      rw [e] at h
      cases h
  · intro h
    exact absurd (h 0 "b" 0 (by decide)) (by decide)

theorem change_axis_order_true (v : Variable) (new_order : AxisOrder)
    (h : ((shape_dict v).all fun p => decide (p.1 ∈ new_order.axes) || decide (p.2 = 1)) = true) :
    change_axis_order v new_order =
      ({ v with axis_order := new_order, shape := new_order.axes.map fun a => (dlookup (shape_dict v) a).getD 1 }, none) := by
  unfold change_axis_order
  rw [if_pos h]

theorem change_axis_order_false (v : Variable) (new_order : AxisOrder)
    (h : ¬ ((shape_dict v).all fun p => decide (p.1 ∈ new_order.axes) || decide (p.2 = 1)) = true) :
    change_axis_order v new_order = (v, some PyErr.assertionError) := by
  unfold change_axis_order
  rw [if_neg h]

/-- C8: `change_axis_order(new_order)` fails with the assertion error —
leaving `shape` and `axis_order` unchanged — exactly when some axis of the
current shape dict is absent from the new order's axis list with size other
than 1; otherwise it succeeds, setting `axis_order` to the new order and the
shape to, for each axis of the new order in order, the current size if the
axis is present and 1 otherwise. -/
theorem change_axis_order_spec (v : Variable) (new_order : AxisOrder) :
    ((∃ p ∈ shape_dict v, p.1 ∉ new_order.axes ∧ p.2 ≠ 1) →
      change_axis_order v new_order = (v, some PyErr.assertionError)) ∧
    ((∀ p ∈ shape_dict v, p.1 ∉ new_order.axes → p.2 = 1) →
      change_axis_order v new_order =
        ({ v with axis_order := new_order, shape := new_order.axes.map fun a => (dlookup (shape_dict v) a).getD 1 }, none)) := by
  constructor
  · rintro ⟨p, hp, h1, h2⟩
    apply change_axis_order_false
    intro hall
    have hb := List.all_eq_true.mp hall p hp
    simp only [Bool.or_eq_true, decide_eq_true_eq] at hb
    rcases hb with hb | hb
    · exact h1 hb
    · exact h2 hb
  · intro hall
    apply change_axis_order_true
    refine List.all_eq_true.mpr fun p hp => ?_
    simp only [Bool.or_eq_true, decide_eq_true_eq]
    by_cases hmem : p.1 ∈ new_order.axes
    · exact Or.inl hmem
    · exact Or.inr (hall p hp hmem)

/-- The `NCHW` axis order of the repository's attribute classes. -/
def NCHW : AxisOrder := { axes := ["N", "C", "H", "W"] }

/-- The `CHW` axis order of the repository's attribute classes. -/
def CHW : AxisOrder := { axes := ["C", "H", "W"] }

/-- A Variable of shape `[1, 3, 8, 8]` under `NCHW`. -/
def v_c8 : Variable :=
  { shape := [1, 3, 8, 8], axis_order := NCHW, input_to := ∅, output_from := none,
    parameters := some [] }

/-- C8 witness: dropping the unit `N` axis of `[1, 3, 8, 8]` succeeds,
producing `[3, 8, 8]` under `CHW`. -/
theorem change_axis_order_spec_w :
    (∀ p ∈ shape_dict v_c8, p.1 ∉ CHW.axes → p.2 = 1) ∧
    change_axis_order v_c8 CHW =
      ({ v_c8 with axis_order := CHW, shape := CHW.axes.map fun a => (dlookup (shape_dict v_c8) a).getD 1 }, none) ∧
    (change_axis_order v_c8 CHW).1.shape = [3, 8, 8] :=
  ⟨by decide, (change_axis_order_spec v_c8 CHW).2 (by decide), by decide⟩

/-- C10: the `Node` base constructor turns a missing parameter mapping into
an empty one, but `Operator.__init__` then reassigns the raw argument, so an
Operator built without parameters carries `None` and any parameter read on
it raises a type error instead of reporting the key absent; a Variable built
normally gets the empty mapping. -/
theorem operator_parameters_not_initialized (opname key : String) (sh : List Nat)
    (ord : AxisOrder) :
    (Node_init none).parameters = some [] ∧
    (mkOperator opname none).parameters = none ∧
    read_parameter (mkOperator opname none).parameters key =
      Except.error PyErr.typeError ∧
    (∀ v, mkVariable sh ord = Except.ok v → v.parameters = some []) := by
  refine ⟨rfl, rfl, rfl, ?_⟩
  intro v hv
  unfold mkVariable at hv
  split at hv
  · injection hv with h
    subst h
    rfl
  · exact Except.noConfusion hv

/-- The Variable produced by `mkVariable [1] ⟨["N"]⟩`. -/
def v_c10 : Variable :=
  { shape := [1], axis_order := { axes := ["N"] }, input_to := ∅, output_from := none,
    parameters := some [] }

/-- C10 witness: a concretely constructed Variable carries the empty
parameter mapping. -/
theorem operator_parameters_not_initialized_w :
    mkVariable [1] { axes := ["N"] } = Except.ok v_c10 ∧ v_c10.parameters = some [] :=
  ⟨rfl,
   (operator_parameters_not_initialized "op" "k" [1] { axes := ["N"] }).2.2.2 v_c10 rfl⟩

/-! ## Lemmas for the axis-order round trip -/

theorem dlookup_zip_map (l : List String) (f : String → Nat) (a : String) :
    l.Nodup → a ∈ l → dlookup (l.zip (l.map f)) a = some (f a) := by
  induction l with
  | nil => intro _ ha; cases ha
  | cons x xs ih =>
    intro hnd ha
    rw [List.map_cons, List.zip_cons_cons]
    by_cases hx : x = a
    · subst hx
      simp [dlookup]
    · have ha' : a ∈ xs := by
        rcases List.mem_cons.mp ha with h | h
        · exact absurd h.symm hx
        · exact h
      simp only [dlookup, if_neg hx]
      exact ih (List.nodup_cons.mp hnd).2 ha'

theorem dlookup_zip_not_mem (l : List String) (ys : List Nat) (a : String) :
    a ∉ l → dlookup (l.zip ys) a = none := by
  induction l generalizing ys with
  | nil => intro _; simp [dlookup]
  | cons x xs ih =>
    intro ha
    cases ys with
    | nil => simp [dlookup]
    | cons y ys' =>
      rw [List.zip_cons_cons]
      have hx : x ≠ a := fun h => ha (h ▸ List.mem_cons_self x xs)
      simp only [dlookup, if_neg hx]
      exact ih ys' fun h => ha (List.mem_cons_of_mem _ h)

theorem snd_eq_of_mem_zip_map (l : List String) (f : String → Nat) (p : String × Nat) :
    p ∈ l.zip (l.map f) → p.2 = f p.1 := by
  induction l with
  | nil => intro h; cases h
  | cons x xs ih =>
    intro h
    rw [List.map_cons, List.zip_cons_cons] at h
    rcases List.mem_cons.mp h with h | h
    · subst h; rfl
    · exact ih h

theorem map_dlookup_zip_self (l : List String) :
    ∀ ys : List Nat, l.Nodup → l.length = ys.length →
    (l.map fun a => (dlookup (l.zip ys) a).getD 1) = ys := by
  induction l with
  | nil =>
    intro ys _ hlen
    cases ys with
    | nil => rfl
    | cons y ys' => simp at hlen
  | cons x xs ih =>
    intro ys hnd hlen
    cases ys with
    | nil => simp at hlen
    | cons y ys' =>
      rw [List.zip_cons_cons, List.map_cons]
      congr 1
      · simp [dlookup]
      · have hx : x ∉ xs := (List.nodup_cons.mp hnd).1
        have hcongr : (xs.map fun a => (dlookup ((x, y) :: xs.zip ys') a).getD 1)
            = xs.map fun a => (dlookup (xs.zip ys') a).getD 1 := by
          apply List.map_congr_left
          intro a ha
          have hne : x ≠ a := fun h => hx (h ▸ ha)
          simp [dlookup, if_neg hne]
        rw [hcongr]
        exact ih ys' (List.nodup_cons.mp hnd).2 (by simpa using hlen)

/-- C9: for a Variable under axis order `A` (with distinct axis names, and a
shape of matching length) all of whose axes occur in `B` (also with distinct
axis names), `change_axis_order(B)` followed by `change_axis_order(A)`
succeeds in both directions — no axis is dropped with size greater than 1 —
and restores the original shape and axis order. -/
theorem change_axis_order_round_trip (v : Variable) (A B : AxisOrder)
    (horder : v.axis_order = A)
    (hlen : A.axes.length = v.shape.length)
    (hAnd : A.axes.Nodup)
    (hBnd : B.axes.Nodup)
    (hsub : ∀ a ∈ A.axes, a ∈ B.axes) :
    (change_axis_order v B).2 = none ∧
    (change_axis_order (change_axis_order v B).1 A).2 = none ∧
    (change_axis_order (change_axis_order v B).1 A).1.shape = v.shape ∧
    (change_axis_order (change_axis_order v B).1 A).1.axis_order = A := by
  have hsd : shape_dict v = A.axes.zip v.shape := by
    simp [shape_dict, horder]
  have h1cond : ∀ p ∈ shape_dict v, p.1 ∉ B.axes → p.2 = 1 := by
    rintro ⟨a, sz⟩ hp hmem
    rw [hsd] at hp
    exact absurd (hsub a (List.of_mem_zip hp).1) hmem
  have h1 : change_axis_order v B =
      ({ v with axis_order := B, shape := B.axes.map fun a => (dlookup (shape_dict v) a).getD 1 }, none) :=
    (change_axis_order_spec v B).2 h1cond
  have hsd1 : shape_dict { v with axis_order := B, shape := B.axes.map fun a => (dlookup (shape_dict v) a).getD 1 } =
      B.axes.zip (B.axes.map fun a => (dlookup (shape_dict v) a).getD 1) := by
    simp [shape_dict]
  have h2cond : ∀ p ∈ shape_dict { v with axis_order := B, shape := B.axes.map fun a => (dlookup (shape_dict v) a).getD 1 },
      p.1 ∉ A.axes → p.2 = 1 := by
    intro p hp hmem
    rw [hsd1] at hp
    have hp2 := snd_eq_of_mem_zip_map B.axes (fun a => (dlookup (shape_dict v) a).getD 1) p hp
    rw [hp2]
    show (dlookup (shape_dict v) p.1).getD 1 = 1
    rw [hsd, dlookup_zip_not_mem A.axes v.shape p.1 hmem]
    rfl
  have h2 : change_axis_order { v with axis_order := B, shape := B.axes.map fun a => (dlookup (shape_dict v) a).getD 1 } A =
      ({ { v with axis_order := B, shape := B.axes.map fun a => (dlookup (shape_dict v) a).getD 1 } with
          axis_order := A,
          shape := A.axes.map fun a => (dlookup (shape_dict { v with axis_order := B, shape := B.axes.map fun a => (dlookup (shape_dict v) a).getD 1 }) a).getD 1 }, none) :=
    (change_axis_order_spec _ A).2 h2cond
  have hshape : (A.axes.map fun a => (dlookup (shape_dict { v with axis_order := B, shape := B.axes.map fun a => (dlookup (shape_dict v) a).getD 1 }) a).getD 1) = v.shape := by
    have hmap : (A.axes.map fun a => (dlookup (shape_dict { v with axis_order := B, shape := B.axes.map fun a => (dlookup (shape_dict v) a).getD 1 }) a).getD 1)
        = A.axes.map fun a => (dlookup (shape_dict v) a).getD 1 := by
      apply List.map_congr_left
      intro a ha
      rw [hsd1, dlookup_zip_map B.axes (fun a => (dlookup (shape_dict v) a).getD 1) a hBnd (hsub a ha)]
      rfl
    rw [hmap]
    have hmap2 : (A.axes.map fun a => (dlookup (shape_dict v) a).getD 1)
        = A.axes.map fun a => (dlookup (A.axes.zip v.shape) a).getD 1 := by
      apply List.map_congr_left
      intro a _
      rw [hsd]
    rw [hmap2]
    exact map_dlookup_zip_self A.axes v.shape hAnd hlen
  rw [h1]
  refine ⟨rfl, ?_, ?_, ?_⟩
  · rw [h2]
  · rw [h2]
    exact hshape
  · rw [h2]

/-- The Variable of the C9 witness: shape `[3, 8, 8]` under `CHW`. -/
def v_c9 : Variable :=
  { shape := [3, 8, 8], axis_order := CHW, input_to := ∅, output_from := none,
    parameters := some [] }

/-- C9 witness: `CHW → NCHW → CHW` on shape `[3, 8, 8]` restores the
original shape and axis order. -/
theorem change_axis_order_round_trip_w :
    v_c9.axis_order = CHW ∧ CHW.axes.length = v_c9.shape.length ∧
    CHW.axes.Nodup ∧ NCHW.axes.Nodup ∧ (∀ a ∈ CHW.axes, a ∈ NCHW.axes) ∧
    ((change_axis_order v_c9 NCHW).2 = none ∧
     (change_axis_order (change_axis_order v_c9 NCHW).1 CHW).2 = none ∧
     (change_axis_order (change_axis_order v_c9 NCHW).1 CHW).1.shape = v_c9.shape ∧
     (change_axis_order (change_axis_order v_c9 NCHW).1 CHW).1.axis_order = CHW) :=
  ⟨rfl, rfl, by decide, by decide, by decide,
   change_axis_order_round_trip v_c9 CHW NCHW rfl rfl (by decide) (by decide) (by decide)⟩

end WebDNN
